import Mathlib

/-!
Shallow embedding of the condition-monitoring and alert-dispatch scripts of the
Agentic-AI-Sentiment-Analysis repository, and proofs of the behavioural claims
about them.

The embedded code lives in:
* `examples/advanced_monitor.py` — class `BTCAdvancedMonitor` with
  `get_market_data`, `get_market_sentiment`, `analyze_market`,
  `run_scheduled_analysis`, `send_to_telegram`;
* `examples/btc_price_monitor.py` — class `BTCPriceAgent` with
  `process_notification`;
* `sentiment_agent.py` — `ClassifySentimentTool.execute`.

Modelling conventions: Python floats are embedded as `ℚ`; a Python call that
may raise is embedded as an `Except String` value (the `error` payload is the
exception text); external effects (the exchange fetch, the LLM call, the
Telegram POST) are passed in as explicit arguments so that each function is a
pure function of the code's inputs.
-/

namespace BTCMonitorModel

/-- Role of a chat message (`spoon_ai.schema.Message.role`). -/
inductive Role where
  | user
  | assistant
deriving DecidableEq, Repr

/-- A chat message (`spoon_ai.schema.Message`): a role and a content string. -/
structure Message where
  role : Role
  content : String
deriving DecidableEq, Repr

/-- Conversation memory (`spoon_ai.chat.Memory`): an ordered list of messages. -/
abbrev Memory := List Message

/-- `Memory.clear()` — drops every stored message. -/
def memory_clear (_ : Memory) : Memory := []

/-- `Memory.add_message(msg)` — appends a message at the end. -/
def memory_add (m : Memory) (msg : Message) : Memory := m ++ [msg]

/-- `Memory.get_messages()` — returns the stored messages in order. -/
def memory_get_messages (m : Memory) : List Message := m

/-- One formatted daily candle produced by `get_market_data`
(`open_time`/`open`/`high`/`low`/`close`/`volume`). -/
structure KlineDaily where
  open_time : String
  open_p : ℚ
  high : ℚ
  low : ℚ
  close : ℚ
  volume : ℚ
deriving DecidableEq, Repr

/-- The dictionary returned by `BTCAdvancedMonitor.get_market_data` on success
(advanced_monitor.py lines 101-111). -/
structure MarketData where
  current_price : ℚ
  price_change_24h : ℚ
  price_change_percent_24h : ℚ
  volume_24h : ℚ
  high_24h : ℚ
  low_24h : ℚ
  klines_daily : List KlineDaily
  timestamp : String
deriving DecidableEq, Repr

/-- The dictionary returned by `BTCAdvancedMonitor.get_market_sentiment`
(advanced_monitor.py lines 145-150 and 153-158). -/
structure SentimentData where
  sentiment : String
  score : ℕ
  based_on : String
  price_change : ℚ
deriving DecidableEq, Repr

/-- `BTCAdvancedMonitor.get_market_sentiment` (advanced_monitor.py lines
116-158).  The inner `await self.get_market_data()` is the only statement of
the `try` block that can raise, so the whole computation is a function of the
fetch outcome: on a raised fetch error the `except` arm returns the fixed
fallback record; on success the score is the cascade of `price_change`
comparisons from the source. -/
def get_market_sentiment (fetch_res : Except String MarketData) : SentimentData :=
  match fetch_res with
  | Except.error _ =>
      ⟨"Unknown", 50, "no data", 0⟩
  | Except.ok market_data =>
      let price_change := market_data.price_change_percent_24h
      if price_change > 5 then ⟨"Extremely Bullish", 90, "price change percentage", price_change⟩
      else if price_change > 2 then ⟨"Bullish", 70, "price change percentage", price_change⟩
      else if price_change > 0 then ⟨"Slightly Bullish", 60, "price change percentage", price_change⟩
      else if price_change > -2 then ⟨"Slightly Bearish", 40, "price change percentage", price_change⟩
      else if price_change > -5 then ⟨"Bearish", 30, "price change percentage", price_change⟩
      else ⟨"Extremely Bearish", 10, "price change percentage", price_change⟩

/-- The score cascade of `get_market_sentiment` isolated as a function of the
24h price-change percentage alone (advanced_monitor.py lines 126-143). -/
def score_of_change (price_change : ℚ) : ℕ :=
  if price_change > 5 then 90
  else if price_change > 2 then 70
  else if price_change > 0 then 60
  else if price_change > -2 then 40
  else if price_change > -5 then 30
  else 10

/-- Rendering of one numeric value inside an f-string (stands for Python's
`str()` on a float; the exact digit string never decides a claim). -/
def num_str (q : ℚ) : String := toString q

/-- Rendering of one formatted candle inside `json.dumps` (stands for Python's
JSON serialisation of the dict built at advanced_monitor.py lines 92-99). -/
def kline_json (k : KlineDaily) : String :=
  "\x7b\"open_time\": \"" ++ k.open_time ++ "\", \"open\": " ++ num_str k.open_p
    ++ ", \"high\": " ++ num_str k.high ++ ", \"low\": " ++ num_str k.low
    ++ ", \"close\": " ++ num_str k.close ++ ", \"volume\": " ++ num_str k.volume ++ "\x7d"

/-- Rendering of `json.dumps(market_data['klines_daily'], ...)` used in the
analysis prompt (advanced_monitor.py line 182). -/
def format_klines (ks : List KlineDaily) : String :=
  "[" ++ String.intercalate ", " (ks.map kline_json) ++ "]"

/-- The user-message content built by `analyze_market`
(advanced_monitor.py lines 168-191). -/
def analysis_prompt (symbol : String) (market_data : MarketData)
    (sentiment_data : SentimentData) : String :=
  "Please provide detailed analysis based on the following Bitcoin market data:\n\n"
    ++ "Trading Pair: " ++ symbol ++ "\n"
    ++ "Current Price: " ++ num_str market_data.current_price ++ " USD\n"
    ++ "24h Price Change: " ++ num_str market_data.price_change_24h ++ " USD ("
    ++ num_str market_data.price_change_percent_24h ++ "%)\n"
    ++ "24h Trading Volume: " ++ num_str market_data.volume_24h ++ " USD\n"
    ++ "24h High: " ++ num_str market_data.high_24h ++ " USD\n"
    ++ "24h Low: " ++ num_str market_data.low_24h ++ " USD\n"
    ++ "Market Sentiment: " ++ sentiment_data.sentiment
    ++ " (Score: " ++ toString sentiment_data.score ++ "/100)\n"
    ++ "Time: " ++ market_data.timestamp ++ "\n\n"
    ++ "Recent 7-day Kline Data:\n"
    ++ format_klines market_data.klines_daily ++ "\n\n"
    ++ "Please provide analysis including:\n"
    ++ "1. Price trend overview\n"
    ++ "2. Important support/resistance levels\n"
    ++ "3. Recent volume analysis\n"
    ++ "4. Short-term price prediction\n"
    ++ "5. Specific action recommendations\n"

/-- `BTCAdvancedMonitor.analyze_market` (advanced_monitor.py lines 160-206),
returning the result string together with the memory left behind.  The two
awaited fetches (`get_market_data`, and the one inside `get_market_sentiment`)
are driven by the same `fetch_res` outcome; `ask` embeds
`self.chatbot.ask(self.memory.get_messages(), ...)`.  Any exception raised in
the `try` block is caught and turned into the string
`"Market analysis generation failed: " ++ e`; on the fetch-error path the
memory is untouched because the exception fires before `memory.clear()`. -/
def analyze_market (symbol : String) (mem : Memory)
    (fetch_res : Except String MarketData)
    (ask : List Message → Except String String) : String × Memory :=
  match fetch_res with
  | Except.error e => ("Market analysis generation failed: " ++ e, mem)
  | Except.ok market_data =>
      let sentiment_data := get_market_sentiment fetch_res
      let user_message : Message := ⟨Role.user, analysis_prompt symbol market_data sentiment_data⟩
      let mem1 := memory_add (memory_clear mem) user_message
      match ask (memory_get_messages mem1) with
      | Except.error e => ("Market analysis generation failed: " ++ e, mem1)
      | Except.ok response => (response, mem1)

/-- The message list `analyze_market` passes to `chatbot.ask`
(advanced_monitor.py lines 193-198: clear, add the user message, get_messages). -/
def analyze_market_request (symbol : String) (mem : Memory) (market_data : MarketData) : List Message :=
  memory_get_messages (memory_add (memory_clear mem)
    ⟨Role.user, analysis_prompt symbol market_data (get_market_sentiment (Except.ok market_data))⟩)

/-- The `alert_data` dictionary consumed by `BTCPriceAgent.process_notification`;
each field is read with `.get(key, default)`, so all fields are optional. -/
structure AlertData where
  symbol : Option String
  current_value : Option ℚ
  threshold : Option ℚ
  metric : Option String
deriving DecidableEq, Repr

/-- The user-message content built by `process_notification`
(btc_price_monitor.py lines 136-150); `now` stands for
`datetime.now().strftime('%Y-%m-%d %H:%M:%S')`. -/
def alert_prompt (alert_data : AlertData) (now : String) : String :=
  "Bitcoin price monitoring triggered an alert:\n"
    ++ "            - Trading Pair: " ++ alert_data.symbol.getD "BTCUSDT" ++ "\n"
    ++ "            - Current Value: " ++ num_str (alert_data.current_value.getD 0) ++ "\n"
    ++ "            - Threshold: " ++ num_str (alert_data.threshold.getD 0) ++ "\n"
    ++ "            - Metric: " ++ alert_data.metric.getD "price" ++ "\n"
    ++ "            - Time: " ++ now ++ "\n            \n"
    ++ "            Please provide a brief price alert and market analysis, including:\n"
    ++ "            1. Brief description of price movement\n"
    ++ "            2. Potential recent support/resistance levels\n"
    ++ "            3. Brief view on short-term trends\n            "

/-- `BTCPriceAgent.process_notification` (btc_price_monitor.py lines 127-162),
returning the response together with the memory left behind.  The body has no
try/except: the user message is appended to the persistent memory, the whole
memory is sent to `chatbot.ask`, and a raised `ask` exception propagates to
the caller (hence the `Except` result). -/
def process_notification (mem : Memory) (alert_data : AlertData) (now : String)
    (ask : List Message → Except String String) : Except String (String × Memory) :=
  let user_message : Message := ⟨Role.user, alert_prompt alert_data now⟩
  let mem1 := memory_add mem user_message
  match ask (memory_get_messages mem1) with
  | Except.error e => Except.error e
  | Except.ok response =>
      let assistant_message : Message := ⟨Role.assistant, response⟩
      Except.ok (response, memory_add mem1 assistant_message)

/-- The message list `process_notification` passes to `chatbot.ask`
(btc_price_monitor.py lines 152-156: add the user message to the persistent
memory, then get_messages). -/
def process_notification_request (mem : Memory) (alert_data : AlertData) (now : String) : List Message :=
  memory_get_messages (memory_add mem ⟨Role.user, alert_prompt alert_data now⟩)

/-- The memory left behind by a successful `process_notification` run: the
incoming memory, plus the user message, plus the assistant response
(btc_price_monitor.py lines 152-160). -/
def memory_after (mem : Memory) (alert_data : AlertData) (now response : String) : Memory :=
  memory_add (memory_add mem ⟨Role.user, alert_prompt alert_data now⟩) ⟨Role.assistant, response⟩

/-- A concrete successful market-data record used to instantiate theorems. -/
def md_sample : MarketData :=
  ⟨50000, 1500, 3, 10000, 51000, 48000, [], "2025-01-01 00:00:00"⟩

/-- A concrete alert-event record used to instantiate theorems. -/
def alert_sample1 : AlertData :=
  ⟨some "BTCUSDT", some 71000, some 70000, some "price"⟩

/-- A second, different concrete alert-event record. -/
def alert_sample2 : AlertData :=
  ⟨some "BTCUSDT", some 6, some 5, some "price_change_percent"⟩

/-- What the `while True` loop of `run_scheduled_analysis` does after one
iteration: either it sleeps for some number of seconds and polls again, or it
halts (stops scheduling further iterations). -/
inductive LoopAction where
  | poll_again (sleep_seconds : ℕ)
  | halt
deriving DecidableEq, Repr

/-- The control flow of one iteration of
`BTCAdvancedMonitor.run_scheduled_analysis` (advanced_monitor.py lines
208-225).  `outcome` is how the `try` body ended: `ok` with the analysis
string, or `error` with the text of a raised exception.  On success the loop
sleeps `interval_hours * 60 * 60` seconds and iterates again; on a caught
exception it sleeps `60 * 10` seconds and iterates again.  No branch leaves
the `while True` loop, keeps a failure counter, or marks the task failed. -/
def after_iteration (outcome : Except String String) (interval_hours : ℕ) : LoopAction :=
  match outcome with
  | Except.ok _ => LoopAction.poll_again (interval_hours * 60 * 60)
  | Except.error _ => LoopAction.poll_again (60 * 10)

/-- Start time (in seconds from the first tick) of the n-th iteration of the
`run_scheduled_analysis` loop on the success path: each iteration runs its
body for `work n` seconds and only then sleeps the full
`interval_seconds` (advanced_monitor.py lines 212-220, `await
asyncio.sleep(interval_hours * 60 * 60)` after `analyze_market` returns). -/
def tick_start (work : ℕ → ℕ) (interval_seconds : ℕ) : ℕ → ℕ
  | 0 => 0
  | n + 1 => tick_start work interval_seconds n + work n + interval_seconds

/-- Pipeline stages of the spec's per-tick ordering claim. -/
inductive Step where
  | fetch
  | evaluate
  | enrich
  | dispatch
  | sleep
deriving DecidableEq, Repr

/-- Position of a stage in the order the spec claims
(fetch → evaluate → enrich → dispatch → sleep). -/
def stage : Step → ℕ
  | Step.fetch => 0
  | Step.evaluate => 1
  | Step.enrich => 2
  | Step.dispatch => 3
  | Step.sleep => 4

/-- The stages performed by `analyze_market`, in execution order
(advanced_monitor.py lines 160-206): `get_market_data` (a fetch), then
`get_market_sentiment` (a second fetch followed by the sentiment evaluation),
then `chatbot.ask` (the enrichment call).  If the fetch raises, the `except`
arm returns before any evaluation or enrichment. -/
def analyze_market_steps (fetch_res : Except String MarketData) : List Step :=
  match fetch_res with
  | Except.error _ => [Step.fetch]
  | Except.ok _ => [Step.fetch, Step.fetch, Step.evaluate, Step.enrich]

/-- The stages performed by one iteration of `run_scheduled_analysis`
(advanced_monitor.py lines 212-220): the `analyze_market` stages followed by
the end-of-iteration sleep.  The dispatch call of the source is the commented
line `# Example: await self.send_to_telegram(analysis)` (line 217), so no
dispatch stage is ever performed. -/
def iteration_steps (fetch_res : Except String MarketData) : List Step :=
  analyze_market_steps fetch_res ++ [Step.sleep]

/-- Python truthiness of an optional environment/argument string:
`os.getenv` yields `none` when unset, and an empty string is also falsy. -/
def truthy : Option String → Bool
  | none => false
  | some s => !s.isEmpty

/-- Python's `a or b` on optional strings: the first truthy operand
(`chat_id = chat_id or os.getenv("TELEGRAM_CHAT_ID")`). -/
def py_or (a b : Option String) : Option String :=
  if truthy a then a else b

/-- Outcome of the `requests.post` call to the Telegram API: delivered (2xx),
an HTTP error status (on which `raise_for_status()` raises), or a raised
transport-level exception. -/
inductive SendOutcome where
  | delivered
  | http_error (code : ℕ)
  | transport_error (msg : String)
deriving DecidableEq, Repr

/-- `BTCAdvancedMonitor.send_to_telegram` (advanced_monitor.py lines 227-252).
`telegram_token` embeds `os.getenv("TELEGRAM_BOT_TOKEN")`, `chat_id_arg` the
`chat_id` parameter, `chat_id_env` `os.getenv("TELEGRAM_CHAT_ID")`.  Missing
configuration returns `false` after logging; a non-2xx response or raised
transport exception is caught by the `except` arm and returns `false`; only a
delivered message returns `true`.  The total `Bool` result type embeds the
fact that the function never raises to its caller. -/
def send_to_telegram (telegram_token chat_id_arg chat_id_env : Option String)
    (outcome : SendOutcome) : Bool :=
  let chat_id := py_or chat_id_arg chat_id_env
  if !truthy telegram_token || !truthy chat_id then
    false
  else
    match outcome with
    | SendOutcome.delivered => true
    | SendOutcome.http_error _ => false
    | SendOutcome.transport_error _ => false

/-- The two result shapes `ClassifySentimentTool.execute` can produce at the
tool boundary: a plain Python `str`, or a one-element tuple. -/
inductive ExecResult where
  | py_str (s : String)
  | py_tuple1 (s : String)
deriving DecidableEq, Repr

/-- `ClassifySentimentTool.execute` (sentiment_agent.py lines 63-88), as a
function of the HTTP status of the news-search response and of the sentiment
string that `classify_sent` produces from the fetched articles.  A status
other than 200 returns the plain failure string; a 200 status returns the
one-element tuple `(sentiment, )` — despite the declared return type `str`. -/
def ClassifySentimentTool_execute (status : ℕ) (sentiment : String) : ExecResult :=
  if status ≠ 200 then
    ExecResult.py_str ("Failed to obtain news text, status code:" ++ toString status)
  else
    ExecResult.py_tuple1 sentiment

end BTCMonitorModel

namespace BTCMonitorModel

lemma get_market_sentiment_ok_score (md : MarketData) :
    (get_market_sentiment (Except.ok md)).score = score_of_change md.price_change_percent_24h := by
  simp only [get_market_sentiment, score_of_change]
  split_ifs <;> rfl

lemma process_notification_ok_run (mem : Memory) (a : AlertData) (now r : String) :
    process_notification mem a now (fun _ => Except.ok r)
      = Except.ok (r, memory_after mem a now r) := rfl

/-- C1: the claim says an enrichment failure yields the raw, unenriched alert
description and never propagates.  On the code it is false twice over:
`process_notification` has no handler and propagates the failure to its
caller, and `analyze_market`'s handler returns an error message built from
the exception text, not the alert description.  Shown here at a concrete
alert/market input with a failing `ask`. -/
theorem C1_counterexample :
    process_notification ([] : Memory) alert_sample1 "2025-01-01 00:00:00"
        (fun _ => Except.error "timeout")
      = Except.error "timeout"
    ∧ (analyze_market "BTCUSDT" ([] : Memory) (Except.ok md_sample)
        (fun _ => Except.error "timeout")).1
      = "Market analysis generation failed: timeout" :=
  ⟨rfl, rfl⟩

/-- C1 (amended): in `analyze_market` an enrichment failure is caught locally
and the function returns the fixed failure message followed by the exception
text (never the raw alert description, and never a propagated exception); in
`process_notification` an enrichment failure propagates to the caller
unchanged. -/
theorem C1_enrichment_failure_behavior (symbol : String) (mem : Memory)
    (md : MarketData) (alert_data : AlertData) (now e : String) :
    (analyze_market symbol mem (Except.ok md) (fun _ => Except.error e)).1
      = "Market analysis generation failed: " ++ e
    ∧ process_notification mem alert_data now (fun _ => Except.error e)
      = Except.error e :=
  ⟨rfl, rfl⟩

/-- C3: the claim says no conversational state from an earlier alert is
included in the enrichment request for a later alert.  `analyze_market`
satisfies this (it clears the memory first), but `process_notification` does
not: after processing `alert_sample1`, the request sent for `alert_sample2`
still contains the first alert's user message. -/
theorem C3_counterexample :
    process_notification ([] : Memory) alert_sample1 "t1" (fun _ => Except.ok "resp1")
      = Except.ok ("resp1", memory_after ([] : Memory) alert_sample1 "t1" "resp1")
    ∧ (⟨Role.user, alert_prompt alert_sample1 "t1"⟩ : Message)
        ∈ process_notification_request (memory_after ([] : Memory) alert_sample1 "t1" "resp1")
            alert_sample2 "t2" :=
  ⟨rfl, by simp [process_notification_request, memory_after, memory_add, memory_get_messages]⟩

/-- C3 (amended): the request `analyze_market` sends to the LLM is independent
of the incoming conversation memory (the memory is cleared before the call,
so the request is exactly the one user message built from the current data);
the request `process_notification` sends after an earlier alert has been
processed is the entire retained history — prior alert, prior response — with
the new alert appended. -/
theorem C3_enrichment_statelessness (mem mem' : Memory) (symbol : String)
    (md : MarketData) (a1 a2 : AlertData) (t1 t2 r1 : String) :
    analyze_market_request symbol mem md = analyze_market_request symbol mem' md
    ∧ process_notification_request (memory_after mem a1 t1 r1) a2 t2
      = memory_get_messages mem
        ++ [⟨Role.user, alert_prompt a1 t1⟩, ⟨Role.assistant, r1⟩,
            ⟨Role.user, alert_prompt a2 t2⟩] := by
  constructor
  · rfl
  · simp [process_notification_request, memory_after, memory_add, memory_get_messages]

/-- C8: `get_market_sentiment` never raises; a failed fetch yields the fixed
fallback record (sentiment "Unknown", score 50, basis "no data", price_change
0); a successful fetch yields a score drawn from {90, 70, 60, 40, 30, 10}
that depends only on the 24-hour price-change percentage.  (Totality is
expressed by the embedding itself: the function returns a `SentimentData` for
every fetch outcome, with no error case.) -/
theorem C8_sentiment_fallback_and_scores (e : String) (md md' : MarketData)
    (hpc : md.price_change_percent_24h = md'.price_change_percent_24h) :
    get_market_sentiment (Except.error e) = ⟨"Unknown", 50, "no data", 0⟩
    ∧ (get_market_sentiment (Except.ok md)).score ∈ ([90, 70, 60, 40, 30, 10] : List ℕ)
    ∧ (get_market_sentiment (Except.ok md)).score = (get_market_sentiment (Except.ok md')).score := by
  refine ⟨rfl, ?_, ?_⟩
  · rw [get_market_sentiment_ok_score]
    unfold score_of_change
    split_ifs <;> simp
  · rw [get_market_sentiment_ok_score, get_market_sentiment_ok_score, hpc]

/-- Witness for C8 at a concrete input. -/
theorem C8_sentiment_fallback_and_scores_witness :
    md_sample.price_change_percent_24h = md_sample.price_change_percent_24h
    ∧ (get_market_sentiment (Except.error "boom") = ⟨"Unknown", 50, "no data", 0⟩
      ∧ (get_market_sentiment (Except.ok md_sample)).score ∈ ([90, 70, 60, 40, 30, 10] : List ℕ)
      ∧ (get_market_sentiment (Except.ok md_sample)).score
          = (get_market_sentiment (Except.ok md_sample)).score) :=
  ⟨rfl, C8_sentiment_fallback_and_scores "boom" md_sample md_sample rfl⟩

/-- C2: the claim says that after a bounded number of consecutive fetch
failures the task reaches a terminal ERROR status and polls no further.  On
the code it is false: the loop body is history-free (it keeps no failure
counter), and after a failed iteration it always sleeps 600 seconds and polls
again — so with the spec's own bound of 3, the 4th, 100th, or any later
consecutive failure is still followed by another poll, never by a halt. -/
theorem C2_counterexample :
    after_iteration (Except.error "fetch failed") 6 = LoopAction.poll_again 600
    ∧ after_iteration (Except.error "fetch failed") 6 ≠ LoopAction.halt :=
  ⟨rfl, by decide⟩

/-- C2 (amended): the `run_scheduled_analysis` loop keeps no consecutive-
failure counter and has no terminal failure state: every failed iteration —
regardless of how many failures preceded it — is followed by a 600-second
sleep and another poll, and no iteration outcome whatsoever makes the loop
halt. -/
theorem C2_no_terminal_error_state (e : String) (interval_hours : ℕ)
    (outcome : Except String String) :
    after_iteration (Except.error e) interval_hours = LoopAction.poll_again 600
    ∧ after_iteration outcome interval_hours ≠ LoopAction.halt := by
  refine ⟨rfl, ?_⟩
  cases outcome <;> simp [after_iteration]

/-- C4: after every failed iteration the loop retries after exactly
600 seconds (10 minutes) whatever the configured interval is, and for every
interval of at least one hour that backoff is strictly shorter than the
normal sleep of `interval_hours * 60 * 60` seconds. -/
theorem C4_fixed_backoff (e analysis : String) (interval_hours : ℕ)
    (h1 : 1 ≤ interval_hours) :
    after_iteration (Except.error e) interval_hours = LoopAction.poll_again 600
    ∧ after_iteration (Except.ok analysis) interval_hours
      = LoopAction.poll_again (interval_hours * 60 * 60)
    ∧ 600 < interval_hours * 60 * 60 := by
  refine ⟨rfl, rfl, ?_⟩
  omega

/-- Witness for C4 at the source's default interval of 6 hours. -/
theorem C4_fixed_backoff_witness :
    1 ≤ 6
    ∧ (after_iteration (Except.error "boom") 6 = LoopAction.poll_again 600
      ∧ after_iteration (Except.ok "report") 6 = LoopAction.poll_again (6 * 60 * 60)
      ∧ 600 < 6 * 60 * 60) :=
  ⟨by decide, C4_fixed_backoff "boom" "report" 6 (by decide)⟩

/-- C5: the claim says the sleep is computed as the check interval measured
from the start of the current tick, so a slow analysis cannot delay the next
tick's start by more than one interval.  On the code it is false: with a
6-hour interval (21600 s) and a tick whose body takes 60 s, the second tick
starts 21660 s after the first — later than the claimed 21600 s. -/
theorem C5_counterexample :
    tick_start (fun _ => 60) 21600 1 = 21660 ∧ (21660 : ℕ) ≠ 0 + 21600 :=
  ⟨rfl, by decide⟩

/-- C5 (amended): the loop sleeps the full check interval only after the
tick's body has completed, so the n-th tick starts at the sum of all previous
body durations plus n times the interval — every slow fetch or analysis
pushes all later ticks back by its full duration. -/
theorem C5_sleep_measured_from_completion (work : ℕ → ℕ) (interval_seconds : ℕ) (n : ℕ) :
    tick_start work interval_seconds n
      = (Finset.range n).sum work + n * interval_seconds := by
  induction n with
  | zero => simp [tick_start]
  | succ k ih =>
      rw [tick_start, ih, Finset.sum_range_succ]
      ring

/-- C6: `send_to_telegram` returns `true` exactly when the bot token is
configured, a destination chat id is available (argument or environment), and
the transport delivered the message; every other situation — missing token,
missing chat id, HTTP error status, raised transport exception — yields
`false`, and the function (being total into `Bool`) never raises. -/
theorem C6_send_result_characterisation (telegram_token chat_id_arg chat_id_env : Option String)
    (outcome : SendOutcome) :
    send_to_telegram telegram_token chat_id_arg chat_id_env outcome = true
      ↔ (truthy telegram_token = true
        ∧ truthy (py_or chat_id_arg chat_id_env) = true
        ∧ outcome = SendOutcome.delivered) := by
  simp only [send_to_telegram]
  cases h1 : truthy telegram_token <;>
    cases h2 : truthy (py_or chat_id_arg chat_id_env) <;>
      cases outcome <;> simp

/-- C7: the claim says each iteration performs fetch, evaluate, enrich,
dispatch, sleep in that order.  On the code the dispatch stage never happens:
the send call in the loop body is commented out, so the step sequence of an
iteration (here: a successful fetch) contains no dispatch at all. -/
theorem C7_counterexample :
    Step.dispatch ∉ iteration_steps (Except.ok md_sample) := by
  decide

/-- C7 (amended): within one iteration of the loop the performed steps do
respect the stage order fetch → evaluate → enrich → sleep (no step of a later
stage precedes an earlier stage), but the dispatch stage is absent from every
iteration — the Telegram send in the loop body is commented out. -/
theorem C7_stage_order_without_dispatch (fetch_res : Except String MarketData) :
    (iteration_steps fetch_res).Pairwise (fun a b => stage a ≤ stage b)
    ∧ Step.dispatch ∉ iteration_steps fetch_res := by
  cases fetch_res <;>
    exact ⟨by simp only [iteration_steps, analyze_market_steps]; decide,
           by simp only [iteration_steps, analyze_market_steps]; decide⟩

/-- C9: `ClassifySentimentTool.execute` has an inconsistent result shape: a
non-200 HTTP status yields the plain failure string
`"Failed to obtain news text, status code:<status>"`, while a 200 status
yields a one-element tuple holding the sentiment — two shapes no value can
share, despite the declared return type `str`. -/
theorem C9_result_shape_mismatch (status : ℕ) (sentiment : String)
    (h : status ≠ 200) :
    ClassifySentimentTool_execute status sentiment
      = ExecResult.py_str ("Failed to obtain news text, status code:" ++ toString status)
    ∧ ClassifySentimentTool_execute 200 sentiment = ExecResult.py_tuple1 sentiment
    ∧ ∀ s1 s2 : String, ExecResult.py_str s1 ≠ ExecResult.py_tuple1 s2 := by
  refine ⟨?_, ?_, ?_⟩
  · simp [ClassifySentimentTool_execute, h]
  · simp [ClassifySentimentTool_execute]
  · intro s1 s2
    simp

/-- Witness for C9 at status 404. -/
theorem C9_result_shape_mismatch_witness :
    (404 : ℕ) ≠ 200
    ∧ (ClassifySentimentTool_execute 404 "neutral"
        = ExecResult.py_str ("Failed to obtain news text, status code:" ++ toString (404 : ℕ))
      ∧ ClassifySentimentTool_execute 200 "neutral" = ExecResult.py_tuple1 "neutral"
      ∧ ∀ s1 s2 : String, ExecResult.py_str s1 ≠ ExecResult.py_tuple1 s2) :=
  ⟨by decide, C9_result_shape_mismatch 404 "neutral" (by decide)⟩

/-- C10: the sentiment score of `get_market_sentiment` is monotonically
non-decreasing in the 24-hour price-change percentage. -/
theorem C10_score_monotone (md1 md2 : MarketData)
    (h : md1.price_change_percent_24h ≤ md2.price_change_percent_24h) :
    (get_market_sentiment (Except.ok md1)).score ≤ (get_market_sentiment (Except.ok md2)).score := by
  rw [get_market_sentiment_ok_score, get_market_sentiment_ok_score]
  unfold score_of_change
  split_ifs <;> first | omega | (exfalso; linarith)

/-- Witness for C10 at concrete inputs (price changes -3 and 3). -/
theorem C10_score_monotone_witness :
    (⟨50000, -1500, -3, 10000, 51000, 48000, [], "t"⟩ : MarketData).price_change_percent_24h
      ≤ md_sample.price_change_percent_24h
    ∧ (get_market_sentiment (Except.ok ⟨50000, -1500, -3, 10000, 51000, 48000, [], "t"⟩)).score
        ≤ (get_market_sentiment (Except.ok md_sample)).score :=
  ⟨by decide, C10_score_monotone ⟨50000, -1500, -3, 10000, 51000, 48000, [], "t"⟩ md_sample (by decide)⟩

end BTCMonitorModel
